import Mathlib

/-!
Shallow embedding of the AutoMCP task-orchestration state machine
(plan model, classifier routing, executor adapters, reflection/escalation
ladder) and proofs about it.

Sources embedded here:
* `src/server/models.py` — `TaskStatus`, `TaskCategory`, `AgentMessage`, `TaskStep`
* `config/settings.py` — `Settings.MAX_SUBTASK_RETRIES` / `MAX_PLAN_RETRIES`
* `src/workflow/state.py` — `AgentState`
* `src/agents/router.py` — `router_node`, `executor_router`, `reflection_router`
* `src/agents/planner.py`, `classifier.py`, `executor.py`, `web_executor.py`,
  `llm_responder.py`, `code_generator.py`, `code2mcp_executor.py`,
  `reflection.py` — the LangGraph node functions
* `src/workflow/graph.py` — `get_code_to_mcp_node`, `dynamic_router_node`
  and the edge structure of the compiled graph

External collaborators (planner LLM, classifier LLM, executor backends,
sandbox execution of generated code, reflection-analysis LLM) are modelled
as explicit outcome parameters fed to each node: a node is a pure function
of the incoming state and the collaborator's outcome, returning the merged
state (the Python nodes return partial update dicts and mutate the shared
`TaskStep` objects in place; the functions here return the resulting full
state, with the `messages` channel appended per the `add_messages` reducer).
-/

namespace AutoMCP

/-- `TaskStatus` from `src/server/models.py` (a `str` enum). -/
inductive TaskStatus
  | pending
  | running
  | completed
  | failed
  | skipped
deriving DecidableEq, Repr, Inhabited

/- The four category strings of the `TaskCategory` `str` enums
(`src/server/models.py` and `src/agents/classifier.py` define identical
string values; Python compares them by string value). -/
namespace TaskCategory

def LOCAL_MCP : String := "local_mcp"

def WEB_MCP : String := "web_mcp"

def CODE_TO_MCP : String := "code_to_mcp"

def PURE_LLM : String := "pure_llm"

end TaskCategory

/-- `AgentMessage` from `src/server/models.py`.  The `name`, `timestamp` and
`metadata` fields are omitted: nothing in the orchestration logic reads them
(timestamps are observability only). -/
structure AgentMessage where
  role : String
  content : String
deriving DecidableEq, Repr, Inhabited

/-- `TaskStep` from `src/server/models.py`.  Field defaults mirror the
pydantic defaults (`status = PENDING`, `retry_count = 0`, `max_retries = 3`,
optional fields `None`).  `role` and `description` are required in pydantic;
they default to `""` here only so that the structure is `Inhabited`.
`created_at` / `updated_at` are omitted (observability only). -/
structure TaskStep where
  id : String := ""
  role : String := ""
  description : String := ""
  requirements : List String := []
  task_type : Option String := none
  tool_name : Option String := none
  tool_args : Option String := none
  status : TaskStatus := .pending
  result : Option String := none
  error : Option String := none
  retry_count : Nat := 0
  max_retries : Nat := 3
deriving DecidableEq, Repr, Inhabited

/-- The reflection-relevant fields of `Settings` from `config/settings.py`.
Both are environment-configurable; the pydantic defaults are 3 and 2. -/
structure Settings where
  MAX_SUBTASK_RETRIES : Nat := 3
  MAX_PLAN_RETRIES : Nat := 2
deriving DecidableEq, Repr, Inhabited

/-- The `settings` singleton of `config/settings.py` with default values. -/
def defaultSettings : Settings := {}

/-- The run state threaded between LangGraph nodes.
`src/workflow/state.py` declares the channels `messages`, `plan`,
`current_step_index` and `reflection_count`.  The nodes additionally read
and write the keys `plan_retry_count`, `next_action` and
`max_subtask_retries` via `state.get(...)` (`src/agents/reflection.py`,
`src/agents/router.py`); the module `src/agents/state.py` imported by
`llm_responder.py` and `code_generator.py` (absent from the snapshot) and
the spec's Run State both treat these as state fields.  They are modelled
as `Option`s: `none` is an absent dictionary key, so `state.get(k, d)`
becomes `(·).getD d`. -/
structure AgentState where
  messages : List AgentMessage
  plan : List TaskStep
  current_step_index : Nat
  reflection_count : Nat := 0
  plan_retry_count : Option Nat := none
  next_action : Option String := none
  max_subtask_retries : Option Nat := none
deriving DecidableEq, Repr, Inhabited

/-! ## Routing functions — `src/agents/router.py` -/

/-- `router_node` (`src/agents/router.py` lines 6–30):
Classifier → executor routing.  Out-of-range or empty plan returns
`"__end__"`; the four known categories map to their executor node names;
anything else (including a missing `task_type`) falls back to
`"llm_responder"`. -/
def router_node (state : AgentState) : String :=
  -- `if not plan or idx >= len(plan): return "__end__"`: an empty plan or an
  -- out-of-range index is exactly `plan[idx]? = none`.
  match state.plan[state.current_step_index]? with
  | none => "__end__"
  | some current_step =>
    if current_step.task_type = some TaskCategory.LOCAL_MCP then "executor"
    else if current_step.task_type = some TaskCategory.WEB_MCP then
      "web_executor"
    else if current_step.task_type = some TaskCategory.CODE_TO_MCP then
      "code_generator"
    else if current_step.task_type = some TaskCategory.PURE_LLM then
      "llm_responder"
    else "llm_responder"

/-- `executor_router` (`src/agents/router.py` lines 33–60):
post-execution routing.  Index past the end ends the run; an advanced
index with a completed predecessor goes back to the classifier; a failed
current step goes to reflection; the defensive default ends the run. -/
def executor_router (state : AgentState) : String :=
  if state.plan.length ≤ state.current_step_index then "__end__"
  else if 0 < state.current_step_index ∧
      (state.plan.getD (state.current_step_index - 1) default).status =
        .completed then
    "classifier"
  else if (state.plan.getD state.current_step_index default).status =
      .failed then "reflection"
  else "__end__"

/-- `reflection_router` (`src/agents/router.py` lines 63–76):
dispatch on the `next_action` signal; any unrecognized or missing value
falls through to `"__end__"`. -/
def reflection_router (state : AgentState) : String :=
  match state.next_action with
  | some "retry_subtask" => "classifier"
  | some "replan" => "planner"
  | some "fail_final" => "__end__"
  | _ => "__end__"

/-! ## Graph-level routing — `src/workflow/graph.py` -/

/-- `get_code_to_mcp_node` (`src/workflow/graph.py` lines 26–38).
Its first statement evaluates `settings.ENABLE_CODE2MCP`, but the
`Settings` class in `config/settings.py` defines no such field, so the
attribute lookup raises `AttributeError` (pydantic `BaseSettings` does not
store undeclared attributes).  Modelled as the error the call raises. -/
def get_code_to_mcp_node : Except String String :=
  .error "AttributeError: 'Settings' object has no attribute 'ENABLE_CODE2MCP'"

/-- `dynamic_router_node` (`src/workflow/graph.py` lines 73–81): wraps
`router_node` and, when it answers `"code_generator"`, re-resolves the
target via `get_code_to_mcp_node` (which raises, see above).
`Except.error` models an exception escaping the router. -/
def dynamic_router_node (state : AgentState) : Except String String :=
  let result := router_node state
  if result = "code_generator" then get_code_to_mcp_node
  else .ok result

/-! ## Collaborator outcomes

Every node calls at least one external collaborator (an LLM, a backend, a
sandbox).  Each kind of call is modelled by an explicit outcome datatype:
`success`/`ok` carries what the collaborator returned, `failure`/`raised`
carries the text of the exception the Python code would catch. -/

/-- Outcome of the planner LLM call (`planner.py`):
a parsed `ExecutionPlan.steps` list or an exception. -/
inductive PlanOutcome
  | success (steps : List TaskStep)
  | failure (err : String)
deriving DecidableEq, Repr

/-- Outcome of the classifier call (`classifier.py`): a parsed
`ClassifierOutput` (pydantic validation restricts `category` to the four
enum strings; a parse/validation error takes the `failure` path) or an
exception. -/
inductive ClassifyOutcome
  | success (category : String) (suggested_tool : Option String)
  | failure (err : String)
deriving DecidableEq, Repr

/-- Outcome of a ReAct-agent / LLM-chain invocation inside an executor
adapter's `try` block. -/
inductive LLMOutcome
  | success (output : String)
  | failure (err : String)
deriving DecidableEq, Repr

/-- Outcome of the web executor's `try` block (`web_executor.py`):
on success it records the selected server's name as `tool_name`. -/
inductive WebOutcome
  | success (server_name : String) (output : String)
  | failure (err : String)
deriving DecidableEq, Repr

/-- What happens when `exec`-ing the generated code inside
`SandboxExecutor._run_local_unsafe` (`code_generator.py` lines 61–92):
either the captured stdout, or a raised exception (syntax errors from
`ast.parse` included). -/
inductive SandboxOutcome
  | ok (stdout : String)
  | raised (err : String)
deriving DecidableEq, Repr

/-- Outcome of `code_generator_node`'s `try` block: the LLM produced a
(cleaned) code string and the sandbox ran it, or the LLM call raised. -/
inductive CodeGenOutcome
  | success (generated_code : String) (sandbox : SandboxOutcome)
  | failure (err : String)
deriving DecidableEq, Repr

/-- Outcome of `code2mcp_executor_node`'s `try` block
(`code2mcp_executor.py` lines 175–321), one constructor per early-return
branch: no repos found, no repo selected, conversion failed, full success
(carrying the built result text and `tool_args` JSON), or an exception
anywhere in the `try`. -/
inductive Code2MCPOutcome
  | noRepos
  | notSelected
  | conversionFailed (err : String)
  | success (result_text : String) (tool_args_json : String)
  | failure (err : String)
deriving DecidableEq, Repr

/-! ## Node functions -/

/-- The state update the success branch of `planner_node`
(`src/agents/planner.py` lines 89–94) is *written* to return: plan
replaced by the new steps, cursor reset to 0, one plan-summary message
appended.  The real function never returns it — see `planner_node`. -/
def planner_success_update (state : AgentState) (steps : List TaskStep) :
    AgentState :=
  { state with
    plan := steps,
    current_step_index := 0,
    messages := state.messages ++
      [⟨"assistant", "已生成计划，包含 " ++ toString steps.length ++ " 个步骤。"⟩] }

/-- The state update the exception handler of `planner_node`
(`src/agents/planner.py` lines 96–100) is *written* to return: only a
failure message appended, `plan` and `current_step_index` untouched.
The real function never returns it — see `planner_node`. -/
def planner_failure_update (state : AgentState) (err : String) : AgentState :=
  { state with
    messages := state.messages ++ [⟨"system", "规划失败: " ++ err⟩] }

/-- `planner_node` (`src/agents/planner.py` lines 65–100).  The module
imports only `TaskStep`, `ExecutionPlan` and `AgentState` from the
project (lines 1–4) — it never imports `AgentMessage`, yet both return
paths construct one (lines 93 and 99).  So on the success path, building
the return dict raises `NameError`, the `except Exception` handler at
line 96 catches it, and the handler itself evaluates `AgentMessage` and
raises `NameError` again, uncaught; on the failure path the handler
raises the same way.  The function therefore raises on *every* outcome
and never returns a state update; `Except.error` models the uncaught
exception aborting the invocation. -/
def planner_node (state : AgentState) (outcome : PlanOutcome) :
    Except String AgentState :=
  match outcome with
  | .success _steps => .error "NameError: name 'AgentMessage' is not defined"
  | .failure _err => .error "NameError: name 'AgentMessage' is not defined"

/-- `classifier_node` (`src/agents/classifier.py` lines 180–260).  Out of
range: logs and returns the state unchanged.  Success: writes `task_type`
and `tool_name` on the current step.  Any exception (Ollama call, JSON
parse, pydantic validation): falls back to `task_type = pure_llm` and
records a `Classification Error` on the step — without touching `status`.
No message is appended in any branch. -/
def classifier_node (state : AgentState) (outcome : ClassifyOutcome) :
    AgentState :=
  if h : state.current_step_index < state.plan.length then
    let current_step := state.plan.get ⟨state.current_step_index, h⟩
    match outcome with
    | .success category suggested_tool =>
        { state with
          plan := state.plan.set state.current_step_index
            { current_step with
              task_type := some category,
              tool_name := suggested_tool } }
    | .failure err =>
        { state with
          plan := state.plan.set state.current_step_index
            { current_step with
              task_type := some TaskCategory.PURE_LLM,
              error := some ("Classification Error: " ++ err) } }
  else
    -- `if current_step_index >= len(plan): return {"plan": plan}`
    state

/-- `executor_node` (`src/agents/executor.py` lines 52–156), the local-tool
adapter.  Boundary: appends a message, touches nothing else.  In range the
step is marked `running` for the duration of the call and then, on success:
`result` set, `status = completed`, **`error` cleared**
(`current_step.error = None`, line 128) and the cursor advanced by one; on
failure: `status = failed`, `error` set, cursor unchanged.  Message
contents abbreviate the source's format strings. -/
def executor_node (state : AgentState) (outcome : LLMOutcome) : AgentState :=
  if h : state.current_step_index < state.plan.length then
    let idx := state.current_step_index
    let current_step := state.plan.get ⟨idx, h⟩
    match outcome with
    | .success output =>
        { state with
          plan := state.plan.set idx
            { current_step with
              result := some output,
              status := .completed,
              error := none },
          current_step_index := idx + 1,
          messages := state.messages ++
            [⟨"assistant", "步骤 " ++ toString (idx + 1) ++ " 执行完成: " ++ output⟩] }
    | .failure err =>
        { state with
          plan := state.plan.set idx
            { current_step with
              status := .failed,
              error := some err },
          messages := state.messages ++
            [⟨"system", "步骤 " ++ toString (idx + 1) ++ " 执行出错: " ++ err⟩] }
  else
    { state with
      messages := state.messages ++ [⟨"system", "没有待执行的任务或索引越界。"⟩] }

/-- `llm_responder_node` (`src/agents/llm_responder.py` lines 25–83), the
pure-text adapter.  Same shape as `executor_node` except that the success
path sets `result` and `status = completed` but — unlike `executor_node` —
never clears a pre-existing `error` (lines 67–74 contain no
`current_step.error = None`). -/
def llm_responder_node (state : AgentState) (outcome : LLMOutcome) :
    AgentState :=
  if h : state.current_step_index < state.plan.length then
    let idx := state.current_step_index
    let current_step := state.plan.get ⟨idx, h⟩
    match outcome with
    | .success response_text =>
        { state with
          plan := state.plan.set idx
            { current_step with
              result := some response_text,
              status := .completed },
          current_step_index := idx + 1,
          messages := state.messages ++ [⟨"assistant", response_text⟩] }
    | .failure err =>
        { state with
          plan := state.plan.set idx
            { current_step with
              status := .failed,
              error := some err },
          messages := state.messages ++
            [⟨"system", "Response Error: " ++ err⟩] }
  else
    { state with
      messages := state.messages ++ [⟨"system", "Index out of range"⟩] }

/-- `web_executor_node` (`src/agents/web_executor.py` lines 114–164), the
remote-service adapter.  Success records `result`, `status = completed`
and the chosen server name in `tool_name` (no `error` clearing); failure
records `status = failed` and `error`, cursor unchanged. -/
def web_executor_node (state : AgentState) (outcome : WebOutcome) :
    AgentState :=
  if h : state.current_step_index < state.plan.length then
    let idx := state.current_step_index
    let current_step := state.plan.get ⟨idx, h⟩
    match outcome with
    | .success server_name output =>
        { state with
          plan := state.plan.set idx
            { current_step with
              result := some output,
              status := .completed,
              tool_name := some server_name },
          current_step_index := idx + 1,
          messages := state.messages ++
            [⟨"assistant", "Web Task Completed via " ++ server_name⟩] }
    | .failure err =>
        { state with
          plan := state.plan.set idx
            { current_step with
              status := .failed,
              error := some err },
          messages := state.messages ++
            [⟨"system", "Web Execution Error: " ++ err⟩] }
  else
    { state with
      messages := state.messages ++ [⟨"system", "Index out of range"⟩] }

/-- `SandboxExecutor._run_local_unsafe` (`code_generator.py` lines 61–92),
restricted to its observable result: every exception raised while parsing
or `exec`-ing the code is caught and turned into the **string**
`"Execution Error: ..."` returned as the sandbox output; empty captured
stdout becomes the placeholder success message.  The function never lets
an exception escape. -/
def run_local (sandbox : SandboxOutcome) : String :=
  match sandbox with
  | .ok stdout =>
      if stdout.trim = "" then "Code executed successfully (no output)."
      else stdout
  | .raised err => "Execution Error: " ++ err

/-- `code_generator_node` (`src/agents/code_generator.py` lines 95–150),
the generated-code adapter.  When the LLM call succeeds, the sandbox
output — whatever it is, including an `"Execution Error: ..."` string —
becomes `result` and the step is marked `completed` with the cursor
advanced; the generated code is stored in `tool_args` (the source stores
the dict `{"code": generated_code}` without pydantic validation).  Only an
exception in the `try` block (e.g. the LLM call) produces
`status = failed` with `error` set. -/
def code_generator_node (state : AgentState) (outcome : CodeGenOutcome) :
    AgentState :=
  if h : state.current_step_index < state.plan.length then
    let idx := state.current_step_index
    let current_step := state.plan.get ⟨idx, h⟩
    match outcome with
    | .success generated_code sandbox =>
        let execution_result := run_local sandbox
        { state with
          plan := state.plan.set idx
            { current_step with
              result := some execution_result,
              status := .completed,
              tool_args := some generated_code },
          current_step_index := idx + 1,
          messages := state.messages ++
            [⟨"assistant", "Code Generated & Executed.\nResult: " ++ execution_result⟩] }
    | .failure err =>
        { state with
          plan := state.plan.set idx
            { current_step with
              status := .failed,
              error := some err },
          messages := state.messages ++ [⟨"system", "Code Error: " ++ err⟩] }
  else
    { state with
      messages := state.messages ++ [⟨"system", "Index out of range"⟩] }

/-- `code2mcp_executor_node` (`src/agents/code2mcp_executor.py`
lines 160–321), the repository-conversion variant of the generated-code
adapter.  All three early-return failure branches and the exception
handler set `status = failed` with the corresponding `error` text and
leave the cursor alone; only the success branch advances it. -/
def code2mcp_executor_node (state : AgentState) (outcome : Code2MCPOutcome) :
    AgentState :=
  if h : state.current_step_index < state.plan.length then
    let idx := state.current_step_index
    let current_step := state.plan.get ⟨idx, h⟩
    match outcome with
    | .noRepos =>
        { state with
          plan := state.plan.set idx
            { current_step with
              status := .failed,
              error := some "No suitable GitHub repositories found for this task" },
          messages := state.messages ++
            [⟨"system", "No suitable GitHub repositories found for this task"⟩] }
    | .notSelected =>
        { state with
          plan := state.plan.set idx
            { current_step with
              status := .failed,
              error := some "No suitable repository selected" },
          messages := state.messages ++
            [⟨"system", "No suitable repository selected"⟩] }
    | .conversionFailed err =>
        { state with
          plan := state.plan.set idx
            { current_step with
              status := .failed,
              error := some ("Code2MCP conversion failed: " ++ err) },
          messages := state.messages ++
            [⟨"system", "Code2MCP conversion failed: " ++ err⟩] }
    | .success result_text tool_args_json =>
        { state with
          plan := state.plan.set idx
            { current_step with
              result := some result_text,
              status := .completed,
              tool_args := some tool_args_json },
          current_step_index := idx + 1,
          messages := state.messages ++ [⟨"assistant", result_text⟩] }
    | .failure err =>
        { state with
          plan := state.plan.set idx
            { current_step with
              status := .failed,
              error := some err },
          messages := state.messages ++
            [⟨"system", "Code2MCP Error: " ++ err⟩] }
  else
    { state with
      messages := state.messages ++ [⟨"system", "Index out of range"⟩] }

/-! ## Reflection — `src/agents/reflection.py` -/

/-- The Level-2 message `reflection_node` addresses to the planner
(`reflection.py` lines 78 and 88): the run's "user" entry summarizing the
exhausted step's error, read back by `planner_node` as its next task. -/
def replan_message (idx max_sub_retries : Nat) (last_error : String) :
    AgentMessage :=
  ⟨"user",
    "计划执行受阻：Step " ++ toString idx ++ " failed after " ++
      toString max_sub_retries ++ " retries. Last error: " ++ last_error ++
      "。请根据此信息重新规划剩余任务。"⟩

/-- `reflection_node` (`src/agents/reflection.py` lines 29–99), the
escalation controller.  `hint` is the content the reflection-analysis LLM
returns for `(description, error, retry_count)`.

The node indexes `plan[current_step_index]` without a boundary check, so
an out-of-range cursor raises `IndexError`: modelled as `none`.

The two thresholds are read with `state.get`:
`max_sub_retries = state.get("max_subtask_retries", settings.MAX_SUBTASK_RETRIES)`
and — the variable the source misleadingly names `max_plan_retries` —
`state.get("plan_retry_count", settings.MAX_PLAN_RETRIES)`, i.e. the
*current* plan-retry count, defaulting to the configured maximum when the
key is absent.

Level 1 (`retry_count < max_sub_retries`): append the previous error and
the hint to `requirements`, increment `retry_count`, reset
`status = pending`, signal `retry_subtask`.  Python interpolates a `None`
error as the string `"None"`.
Level 2 (`plan_retry_count < settings.MAX_PLAN_RETRIES`): store the
incremented count, append one replan message addressed to the planner,
signal `replan`.  The plan (and the failed step) is untouched.
Level 3: append a terminal message, signal `fail`. -/
def reflection_node (cfg : Settings) (hint : String) (state : AgentState) :
    Option AgentState :=
  match state.plan[state.current_step_index]? with
  | none => none
  | some current_step =>
    let idx := state.current_step_index
    let max_sub_retries := state.max_subtask_retries.getD cfg.MAX_SUBTASK_RETRIES
    let max_plan_retries := state.plan_retry_count.getD cfg.MAX_PLAN_RETRIES
    if current_step.retry_count < max_sub_retries then
      let previous_error := current_step.error.getD "None"
      let updated_step :=
        { current_step with
          requirements := current_step.requirements ++
            ["Previous Error: " ++ previous_error, "Fix Hint: " ++ hint],
          retry_count := current_step.retry_count + 1,
          status := .pending }
      some { state with
        plan := state.plan.set idx updated_step,
        messages := state.messages ++
          [⟨"system",
            "子任务失败，正在第 " ++ toString updated_step.retry_count ++ " 次重试..."⟩],
        next_action := some "retry_subtask" }
    else if max_plan_retries < cfg.MAX_PLAN_RETRIES then
      some { state with
        plan_retry_count := some (max_plan_retries + 1),
        messages := state.messages ++
          [replan_message idx max_sub_retries (current_step.error.getD "None")],
        next_action := some "replan" }
    else
      some { state with
        messages := state.messages ++
          [⟨"system", "所有重试手段已耗尽，任务执行失败。"⟩],
        next_action := some "fail" }

/-! ## The orchestration transition system

`src/workflow/graph.py` wires the nodes into a LangGraph `StateGraph`
(planner → classifier → one executor → back to classifier, reflection, or
END, with reflection looping to classifier or planner).  For invariants we
use the over-approximating step relation below — any node may fire on any
state with any collaborator outcome — so an invariant proved over it holds
a fortiori along every path the compiled graph can take.  The planner
constructors install the state updates the planner's two return branches
are written to produce (`planner_success_update` / `planner_failure_update`);
the real `planner_node` in fact raises `NameError` before returning either
(see its docstring), so real runs never even fire these transitions — the
relation strictly over-approximates the program, which is sound for the
invariants proved here.  The success constructor carries the hypothesis
that the installed steps are freshly created `TaskStep`s in the sense of
the pydantic defaults for the control fields (`status = PENDING`,
`error = None`, `retry_count = 0`); the planner prompt and
`ExecutionPlan` schema only ask the LLM for
`role`/`description`/`requirements`. -/

/-- Control fields of a step as the planner creates it
(`TaskStep` pydantic defaults, `models.py` lines 74–79). -/
def TaskStep.fresh (st : TaskStep) : Prop :=
  st.status = .pending ∧ st.error = none ∧ st.retry_count = 0

/-- One node firing, for a fixed `Settings`. -/
inductive GraphStep (cfg : Settings) : AgentState → AgentState → Prop
  | planner_ok (s : AgentState) (steps : List TaskStep)
      (fresh : ∀ st ∈ steps, st.fresh) :
      GraphStep cfg s (planner_success_update s steps)
  | planner_fail (s : AgentState) (err : String) :
      GraphStep cfg s (planner_failure_update s err)
  | classify (s : AgentState) (o : ClassifyOutcome) :
      GraphStep cfg s (classifier_node s o)
  | execLocal (s : AgentState) (o : LLMOutcome) :
      GraphStep cfg s (executor_node s o)
  | execWeb (s : AgentState) (o : WebOutcome) :
      GraphStep cfg s (web_executor_node s o)
  | execLLM (s : AgentState) (o : LLMOutcome) :
      GraphStep cfg s (llm_responder_node s o)
  | execCodeGen (s : AgentState) (o : CodeGenOutcome) :
      GraphStep cfg s (code_generator_node s o)
  | execCode2MCP (s : AgentState) (o : Code2MCPOutcome) :
      GraphStep cfg s (code2mcp_executor_node s o)
  | reflect (s s' : AgentState) (hint : String)
      (h : reflection_node cfg hint s = some s') :
      GraphStep cfg s s'

/-- The initial state a run is invoked with
(`tests/manual_test_flow.py` lines 56–61): an empty plan, cursor 0, and
none of the optional dictionary keys present. -/
def InitialState (s : AgentState) : Prop :=
  s.plan = [] ∧ s.current_step_index = 0 ∧ s.reflection_count = 0 ∧
    s.plan_retry_count = none ∧ s.next_action = none ∧
    s.max_subtask_retries = none

/-- A state some run can be in: reached from an initial state by node
firings. -/
def Reachable (cfg : Settings) (s : AgentState) : Prop :=
  ∃ s₀, InitialState s₀ ∧ Relation.ReflTransGen (GraphStep cfg) s₀ s

/-! ## Concrete states used to instantiate the theorems -/

/-- A one-step plan about to execute its (pending, already classified)
step: the generic instantiation point for the executor-adapter theorems. -/
def witState : AgentState :=
  { messages := [⟨"user", "demo"⟩],
    plan := [{ role := "coder", description := "write a file",
               task_type := some "pure_llm" }],
    current_step_index := 0 }

/-- A step that has exhausted its three subtask retries. -/
def c1_step : TaskStep :=
  { role := "coder", description := "write a file",
    task_type := some "pure_llm", status := .failed,
    error := some "disk full", retry_count := 3 }

/-- Scenario C instantiation: `c1_step` at the cursor of a run state
that — like every state a run can reach — carries no `plan_retry_count`
key (the counter of performed replans is conceptually 0). -/
def c1_state : AgentState :=
  { messages := [⟨"user", "demo"⟩],
    plan := [c1_step],
    current_step_index := 0 }

/-- A fresh step as the planner produces it. -/
def c2_step : TaskStep := { role := "assistant", description := "say hi" }

/-- An initial run state (`manual_test_flow.py`). -/
def c2_s0 : AgentState :=
  { messages := [⟨"user", "say hi"⟩], plan := [], current_step_index := 0 }

/-- … holding the one-step plan a (repaired) planner success would
install … -/
def c2_s1 : AgentState := planner_success_update c2_s0 [c2_step]

/-- … after the classifier call fails (fallback to `pure_llm`, error
recorded on the still-pending step) … -/
def c2_s2 : AgentState :=
  classifier_node c2_s1 (.failure "ollama connection refused")

/-- … after the pure-text adapter then succeeds: the step is `completed`
while the classification error is still set. -/
def c2_s3 : AgentState := llm_responder_node c2_s2 (.success "hello")

/-- The step as it sits in `c2_s3.plan`: `completed` with `error` set. -/
def c2_bad_step : TaskStep :=
  { role := "assistant", description := "say hi",
    task_type := some "pure_llm", status := .completed,
    result := some "hello",
    error := some "Classification Error: ollama connection refused" }

/-- A failed step whose own `max_retries` (5) still allows a retry while
the configured `MAX_SUBTASK_RETRIES` (3) is exhausted. -/
def c3_step : TaskStep :=
  { role := "coder", description := "compile", status := .failed,
    error := some "linker error", retry_count := 3, max_retries := 5 }

/-- Run state holding `c3_step` at the cursor, with neither
`max_subtask_retries` nor `plan_retry_count` present. -/
def c3_state : AgentState :=
  { messages := [], plan := [c3_step], current_step_index := 0 }

/-- A failed step with budget left, about to take the Level-1 retry. -/
def c4_state : AgentState :=
  { messages := [],
    plan := [{ role := "coder", description := "compile",
               requirements := ["use gcc"], status := .failed,
               error := some "linker error", retry_count := 1 }],
    current_step_index := 0 }

/-- A step carrying an unrecognized category. -/
def c5_step : TaskStep :=
  { role := "coder", description := "mystery job", task_type := some "mystery" }

/-- Run state holding `c5_step` at the cursor. -/
def c5_state : AgentState :=
  { messages := [], plan := [c5_step], current_step_index := 0 }

/-- A step classified `code_to_mcp`. -/
def c7_step : TaskStep :=
  { role := "coder", description := "compute", task_type := some "code_to_mcp" }

/-- Run state holding `c7_step` at the cursor. -/
def c7_state : AgentState :=
  { messages := [], plan := [c7_step], current_step_index := 0 }

/-- The run invariant maintained by every node: the state never acquires
a `max_subtask_retries` key (no node writes one, and initial states carry
none, so the configured bound is always `settings.MAX_SUBTASK_RETRIES`);
it never acquires a `plan_retry_count` key either (the only writer is the
reflection node's replan branch, whose guard reads the absent key as
`settings.MAX_PLAN_RETRIES` and is therefore false); every failed step
carries an error text; and no step's `retry_count` exceeds the configured
subtask-retry bound. -/
def RunInvariant (cfg : Settings) (s : AgentState) : Prop :=
  s.max_subtask_retries = none ∧ s.plan_retry_count = none ∧
    ∀ st ∈ s.plan,
      (st.status = .failed → st.error ≠ none) ∧
      st.retry_count ≤ cfg.MAX_SUBTASK_RETRIES

/-! ## Helper lemmas -/

/-- Reading back the slot just written by `List.set`. -/
theorem getD_set_self {l : List TaskStep} {idx : Nat} (h : idx < l.length)
    (v : TaskStep) : (l.set idx v).getD idx default = v := by
  rw [List.getD_eq_getElem?_getD, List.getElem?_set_eq_of_lt _ h]
  rfl

/-! ## C10 — the post-execution router -/

/-- C10: `executor_router` is total over `{classifier, reflection,
__end__}`; and whenever the cursor is in range, the previous step (if
any) is not `completed`, and the current step is not `failed` — the
adapter neither advanced the cursor nor recorded a failure — it answers
the terminal `"__end__"` rather than looping. -/
theorem executor_router_total_with_terminating_default :
    (∀ s : AgentState,
        executor_router s = "classifier" ∨ executor_router s = "reflection" ∨
          executor_router s = "__end__") ∧
    (∀ s : AgentState,
        s.current_step_index < s.plan.length →
        ¬(0 < s.current_step_index ∧
            (s.plan.getD (s.current_step_index - 1) default).status =
              .completed) →
        (s.plan.getD s.current_step_index default).status ≠ .failed →
        executor_router s = "__end__") := by
  constructor
  · intro s
    unfold executor_router
    split_ifs with h1 h2 h3
    · exact Or.inr (Or.inr rfl)
    · exact Or.inl rfl
    · exact Or.inr (Or.inl rfl)
    · exact Or.inr (Or.inr rfl)
  · intro s h1 h2 h3
    unfold executor_router
    rw [if_neg (by omega), if_neg h2, if_neg h3]

/-- Witness for C10: a one-step run where the adapter neither advanced
the cursor nor failed the step ends rather than looping. -/
theorem executor_router_default_witness : executor_router witState = "__end__" :=
  executor_router_total_with_terminating_default.2 witState (by decide)
    (by decide) (by decide)

/-! ## C5 — classification-driven routing -/

/-- C5: with the cursor in range, `router_node` is fail-open — any
`task_type` other than the four known categories (a missing one included)
selects the pure-text executor, never a terminal outcome — and exact
matches select their respective executors.  Through the graph's actual
conditional edge, however, the wrapper `dynamic_router_node` resolves the
`code_generator` answer via `get_code_to_mcp_node`, whose read of
`settings.ENABLE_CODE2MCP` raises `AttributeError` (the field does not
exist on `Settings`): routing a `code_to_mcp` step faults instead of
selecting the generated-code executor. -/
theorem router_fail_open_but_code_to_mcp_route_raises :
    (∀ (s : AgentState) (step : TaskStep),
        s.plan[s.current_step_index]? = some step →
        step.task_type ≠ some TaskCategory.LOCAL_MCP →
        step.task_type ≠ some TaskCategory.WEB_MCP →
        step.task_type ≠ some TaskCategory.CODE_TO_MCP →
        step.task_type ≠ some TaskCategory.PURE_LLM →
        router_node s = "llm_responder" ∧
          dynamic_router_node s = .ok "llm_responder") ∧
    (∀ (s : AgentState) (step : TaskStep),
        s.plan[s.current_step_index]? = some step →
        (step.task_type = some TaskCategory.LOCAL_MCP →
          router_node s = "executor" ∧
            dynamic_router_node s = .ok "executor") ∧
        (step.task_type = some TaskCategory.WEB_MCP →
          router_node s = "web_executor" ∧
            dynamic_router_node s = .ok "web_executor") ∧
        (step.task_type = some TaskCategory.PURE_LLM →
          router_node s = "llm_responder" ∧
            dynamic_router_node s = .ok "llm_responder") ∧
        (step.task_type = some TaskCategory.CODE_TO_MCP →
          router_node s = "code_generator" ∧
            dynamic_router_node s = .error
              "AttributeError: 'Settings' object has no attribute 'ENABLE_CODE2MCP'")) := by
  constructor
  · intro s step hstep h1 h2 h3 h4
    have hr : router_node s = "llm_responder" := by
      unfold router_node
      rw [hstep]
      dsimp only
      rw [if_neg h1, if_neg h2, if_neg h3, if_neg h4]
    refine ⟨hr, ?_⟩
    unfold dynamic_router_node
    rw [hr]
    rfl
  · intro s step hstep
    refine ⟨fun h => ?_, fun h => ?_, fun h => ?_, fun h => ?_⟩
    · have hr : router_node s = "executor" := by
        unfold router_node
        rw [hstep]
        dsimp only
        rw [if_pos h]
      exact ⟨hr, by unfold dynamic_router_node; rw [hr]; rfl⟩
    · have hr : router_node s = "web_executor" := by
        unfold router_node
        rw [hstep]
        dsimp only
        rw [if_neg (by rw [h]; decide), if_pos h]
      exact ⟨hr, by unfold dynamic_router_node; rw [hr]; rfl⟩
    · have hr : router_node s = "llm_responder" := by
        unfold router_node
        rw [hstep]
        dsimp only
        rw [if_neg (by rw [h]; decide), if_neg (by rw [h]; decide),
          if_neg (by rw [h]; decide), if_pos h]
      exact ⟨hr, by unfold dynamic_router_node; rw [hr]; rfl⟩
    · have hr : router_node s = "code_generator" := by
        unfold router_node
        rw [hstep]
        dsimp only
        rw [if_neg (by rw [h]; decide), if_neg (by rw [h]; decide), if_pos h]
      exact ⟨hr, by unfold dynamic_router_node; rw [hr]; rfl⟩

/-- Witness for C5: an unrecognized category routes to the pure-text
executor, and a `code_to_mcp` step makes the graph's router wrapper
raise. -/
theorem router_fail_open_witness :
    router_node c5_state = "llm_responder" ∧
      dynamic_router_node c7_state = .error
        "AttributeError: 'Settings' object has no attribute 'ENABLE_CODE2MCP'" :=
  ⟨(router_fail_open_but_code_to_mcp_route_raises.1 c5_state c5_step
      (by decide) (by decide) (by decide) (by decide) (by decide)).1,
    ((router_fail_open_but_code_to_mcp_route_raises.2 c7_state c7_step
      (by decide)).2.2.2 (by decide)).2⟩

/-! ## The run invariant -/

/-- Updating one slot preserves the per-step half of the invariant when
the new step satisfies it. -/
theorem runInvariant_set {cfg : Settings} {s : AgentState} {v : TaskStep}
    {idx : Nat}
    (inv : ∀ st ∈ s.plan,
      (st.status = .failed → st.error ≠ none) ∧
        st.retry_count ≤ cfg.MAX_SUBTASK_RETRIES)
    (hv : (v.status = .failed → v.error ≠ none) ∧
      v.retry_count ≤ cfg.MAX_SUBTASK_RETRIES) :
    ∀ st ∈ s.plan.set idx v,
      (st.status = .failed → st.error ≠ none) ∧
        st.retry_count ≤ cfg.MAX_SUBTASK_RETRIES := by
  intro st hst
  rcases List.mem_or_eq_of_mem_set hst with hmem | rfl
  · exact inv st hmem
  · exact hv

/-- Every node firing preserves the run invariant. -/
theorem runInvariant_preserved {cfg : Settings} {s t : AgentState}
    (hstep : GraphStep cfg s t) (inv : RunInvariant cfg s) :
    RunInvariant cfg t := by
  obtain ⟨hmax, hprc, hsteps⟩ := inv
  cases hstep with
  | planner_ok steps fresh =>
      refine ⟨hmax, hprc, fun st hst => ?_⟩
      obtain ⟨h1, _, h3⟩ := fresh st hst
      refine ⟨fun hf => absurd (h1.symm.trans hf) (by decide), ?_⟩
      rw [h3]
      exact Nat.zero_le _
  | planner_fail err => exact ⟨hmax, hprc, hsteps⟩
  | classify o =>
      unfold RunInvariant classifier_node
      by_cases hlt : s.current_step_index < s.plan.length
      · rw [dif_pos hlt]
        cases o with
        | success cat tool =>
            exact ⟨hmax, hprc, runInvariant_set hsteps
              ⟨fun hf => (hsteps _ (List.get_mem _ _ _)).1 hf,
                (hsteps _ (List.get_mem _ _ _)).2⟩⟩
        | failure err =>
            exact ⟨hmax, hprc, runInvariant_set hsteps
              ⟨fun _ => by simp, (hsteps _ (List.get_mem _ _ _)).2⟩⟩
      · rw [dif_neg hlt]
        exact ⟨hmax, hprc, hsteps⟩
  | execLocal o =>
      unfold RunInvariant executor_node
      by_cases hlt : s.current_step_index < s.plan.length
      · rw [dif_pos hlt]
        cases o with
        | success out =>
            exact ⟨hmax, hprc, runInvariant_set hsteps
              ⟨fun hf => by simp at hf, (hsteps _ (List.get_mem _ _ _)).2⟩⟩
        | failure err =>
            exact ⟨hmax, hprc, runInvariant_set hsteps
              ⟨fun _ => by simp, (hsteps _ (List.get_mem _ _ _)).2⟩⟩
      · rw [dif_neg hlt]
        exact ⟨hmax, hprc, hsteps⟩
  | execWeb o =>
      unfold RunInvariant web_executor_node
      by_cases hlt : s.current_step_index < s.plan.length
      · rw [dif_pos hlt]
        cases o with
        | success server out =>
            exact ⟨hmax, hprc, runInvariant_set hsteps
              ⟨fun hf => by simp at hf, (hsteps _ (List.get_mem _ _ _)).2⟩⟩
        | failure err =>
            exact ⟨hmax, hprc, runInvariant_set hsteps
              ⟨fun _ => by simp, (hsteps _ (List.get_mem _ _ _)).2⟩⟩
      · rw [dif_neg hlt]
        exact ⟨hmax, hprc, hsteps⟩
  | execLLM o =>
      unfold RunInvariant llm_responder_node
      by_cases hlt : s.current_step_index < s.plan.length
      · rw [dif_pos hlt]
        cases o with
        | success out =>
            exact ⟨hmax, hprc, runInvariant_set hsteps
              ⟨fun hf => by simp at hf, (hsteps _ (List.get_mem _ _ _)).2⟩⟩
        | failure err =>
            exact ⟨hmax, hprc, runInvariant_set hsteps
              ⟨fun _ => by simp, (hsteps _ (List.get_mem _ _ _)).2⟩⟩
      · rw [dif_neg hlt]
        exact ⟨hmax, hprc, hsteps⟩
  | execCodeGen o =>
      unfold RunInvariant code_generator_node
      by_cases hlt : s.current_step_index < s.plan.length
      · rw [dif_pos hlt]
        cases o with
        | success code sb =>
            exact ⟨hmax, hprc, runInvariant_set hsteps
              ⟨fun hf => by simp at hf, (hsteps _ (List.get_mem _ _ _)).2⟩⟩
        | failure err =>
            exact ⟨hmax, hprc, runInvariant_set hsteps
              ⟨fun _ => by simp, (hsteps _ (List.get_mem _ _ _)).2⟩⟩
      · rw [dif_neg hlt]
        exact ⟨hmax, hprc, hsteps⟩
  | execCode2MCP o =>
      unfold RunInvariant code2mcp_executor_node
      by_cases hlt : s.current_step_index < s.plan.length
      · rw [dif_pos hlt]
        cases o with
        | success rt ta =>
            exact ⟨hmax, hprc, runInvariant_set hsteps
              ⟨fun hf => by simp at hf, (hsteps _ (List.get_mem _ _ _)).2⟩⟩
        | noRepos =>
            exact ⟨hmax, hprc, runInvariant_set hsteps
              ⟨fun _ => by simp, (hsteps _ (List.get_mem _ _ _)).2⟩⟩
        | notSelected =>
            exact ⟨hmax, hprc, runInvariant_set hsteps
              ⟨fun _ => by simp, (hsteps _ (List.get_mem _ _ _)).2⟩⟩
        | conversionFailed err =>
            exact ⟨hmax, hprc, runInvariant_set hsteps
              ⟨fun _ => by simp, (hsteps _ (List.get_mem _ _ _)).2⟩⟩
        | failure err =>
            exact ⟨hmax, hprc, runInvariant_set hsteps
              ⟨fun _ => by simp, (hsteps _ (List.get_mem _ _ _)).2⟩⟩
      · rw [dif_neg hlt]
        exact ⟨hmax, hprc, hsteps⟩
  | reflect s' hint h =>
      unfold reflection_node at h
      cases hidx : s.plan[s.current_step_index]? with
      | none => rw [hidx] at h; cases h
      | some step =>
          rw [hidx] at h
          dsimp only at h
          split_ifs at h with h1 h2
          · -- Level 1: requirements appended, retry_count + 1, pending
            injection h with h
            subst h
            refine ⟨hmax, hprc, runInvariant_set hsteps
              ⟨fun hf => by simp at hf, ?_⟩⟩
            rw [hmax] at h1
            exact h1
          · -- Level 2 cannot fire: the `plan_retry_count` key is never
            -- present, so its guard reads the default `MAX_PLAN_RETRIES`
            exfalso
            rw [hprc] at h2
            simp only [Option.getD_none] at h2
            exact absurd h2 (lt_irrefl _)
          · -- Level 3: plan untouched
            injection h with h
            subst h
            exact ⟨hmax, hprc, hsteps⟩

/-- The run invariant holds at every reachable state. -/
theorem runInvariant_reachable (cfg : Settings) (s : AgentState)
    (hr : Reachable cfg s) : RunInvariant cfg s := by
  obtain ⟨s₀, hinit, hsteps⟩ := hr
  induction hsteps with
  | refl =>
      refine ⟨hinit.2.2.2.2.2, hinit.2.2.2.1, fun st hst => ?_⟩
      rw [hinit.1] at hst
      cases hst
  | tail _ hbc ih => exact runInvariant_preserved hbc ih

/-! ## C1 — the Level-2 replan branch -/

/-- C1 counterexample (Scenario C fails): at the start of every run the
state carries no `plan_retry_count` key — the spec's counter value 0 —
and `reflection.py:39` reads the absent key as
`settings.MAX_PLAN_RETRIES`, making the Level-2 guard
`MAX_PLAN_RETRIES < MAX_PLAN_RETRIES` false.  So a step that exhausts its
retries on a fresh run with `MAX_PLAN_RETRIES = 1` is *not* replanned:
the controller emits `fail` with zero replans and stores no count.
Refuted at an exhausted step on a key-free state. -/
theorem scenario_c_no_replan_counterexample :
    ¬ (∀ (cfg : Settings) (hint : String) (s : AgentState) (step : TaskStep),
        s.plan[s.current_step_index]? = some step →
        ¬ step.retry_count <
            s.max_subtask_retries.getD cfg.MAX_SUBTASK_RETRIES →
        s.plan_retry_count = none →
        0 < cfg.MAX_PLAN_RETRIES →
        (reflection_node cfg hint s).map
            (fun t => (t.next_action, t.plan_retry_count)) =
          some (some "replan", some 1)) := by
  intro hclaim
  have := hclaim { MAX_SUBTASK_RETRIES := 3, MAX_PLAN_RETRIES := 1 }
    "use a smaller file" c1_state c1_step (by decide) (by decide) rfl
    (by decide)
  exact absurd this (by decide)

/-- C1 amended: the replan branch is dead code.  `reflection.py:39` reads
`state.get("plan_retry_count", settings.MAX_PLAN_RETRIES)`; the only
writer of that key is the replan branch itself, which can therefore never
fire first, so every reachable run state carries no `plan_retry_count` —
and on any such state an exhausted step always escalates straight to
`next_action = "fail"` (routed to the terminal end), with the plan
untouched and no count stored: no run performs a replan. -/
theorem replan_branch_dead :
    (∀ (cfg : Settings) (s : AgentState), Reachable cfg s →
        s.plan_retry_count = none) ∧
    (∀ (cfg : Settings) (hint : String) (s : AgentState) (step : TaskStep),
        s.plan_retry_count = none →
        s.plan[s.current_step_index]? = some step →
        ¬ step.retry_count <
            s.max_subtask_retries.getD cfg.MAX_SUBTASK_RETRIES →
        ∃ t, reflection_node cfg hint s = some t ∧
          t.next_action = some "fail" ∧
          t.plan_retry_count = none ∧
          t.plan = s.plan ∧
          reflection_router t = "__end__") := by
  constructor
  · intro cfg s hr
    exact (runInvariant_reachable cfg s hr).2.1
  · intro cfg hint s step hnone hstep hexhausted
    unfold reflection_node
    rw [hstep]
    dsimp only
    rw [if_neg hexhausted, hnone]
    dsimp only [Option.getD_none]
    rw [if_neg (lt_irrefl _)]
    exact ⟨_, rfl, rfl, rfl, rfl, rfl⟩

/-- Witness for C1 (amended): a freshly started run carries no
`plan_retry_count`, and reflecting on the exhausted demo step under
`MAX_PLAN_RETRIES = 1` yields `fail` — not `replan` — with no count
stored. -/
theorem replan_branch_dead_witness :
    c2_s0.plan_retry_count = none ∧
    (reflection_node { MAX_SUBTASK_RETRIES := 3, MAX_PLAN_RETRIES := 1 }
        "use a smaller file" c1_state).map
      (fun t => (t.next_action, t.plan_retry_count, reflection_router t)) =
      some (some "fail", none, "__end__") := by
  constructor
  · exact replan_branch_dead.1 defaultSettings c2_s0
      ⟨c2_s0, ⟨rfl, rfl, rfl, rfl, rfl, rfl⟩, .refl⟩
  · obtain ⟨t, ht, h1, h2, _, h4⟩ :=
      replan_branch_dead.2 { MAX_SUBTASK_RETRIES := 3, MAX_PLAN_RETRIES := 1 }
        "use a smaller file" c1_state c1_step rfl (by decide) (by decide)
    rw [ht]
    simp only [Option.map_some']
    rw [h1, h2, h4]

/-! ## C4 — the Level-1 subtask-retry branch -/

/-- C4: on a Level-1 retry (`retry_count` below the configured bound) the
controller appends the previous error and the diagnostic hint to the
step's `requirements` — the pre-retry list is a prefix of the new one —
increments `retry_count` by one, resets `status = pending`, emits
`next_action = "retry_subtask"` (the retry signal, which
`reflection_router` resolves back to the classifier), and leaves the
cursor and the plan-retry counter unchanged. -/
theorem reflection_subtask_retry_effects (cfg : Settings) (hint : String)
    (s : AgentState) (step : TaskStep)
    (hstep : s.plan[s.current_step_index]? = some step)
    (hbudget :
      step.retry_count < s.max_subtask_retries.getD cfg.MAX_SUBTASK_RETRIES) :
    ∃ t, reflection_node cfg hint s = some t ∧
      t.plan = s.plan.set s.current_step_index
        { step with
          requirements := step.requirements ++
            ["Previous Error: " ++ step.error.getD "None",
             "Fix Hint: " ++ hint],
          retry_count := step.retry_count + 1,
          status := .pending } ∧
      step.requirements <+:
        (t.plan.getD s.current_step_index default).requirements ∧
      (t.plan.getD s.current_step_index default).retry_count =
        step.retry_count + 1 ∧
      (t.plan.getD s.current_step_index default).status = .pending ∧
      t.next_action = some "retry_subtask" ∧
      t.current_step_index = s.current_step_index ∧
      t.plan_retry_count = s.plan_retry_count ∧
      reflection_router t = "classifier" := by
  have hlt : s.current_step_index < s.plan.length :=
    (List.getElem?_eq_some_iff.mp hstep).1
  unfold reflection_node
  rw [hstep]
  dsimp only
  rw [if_pos hbudget]
  refine ⟨_, rfl, rfl, ?_, ?_, ?_, rfl, rfl, rfl, rfl⟩
  · rw [getD_set_self hlt]
    exact ⟨_, rfl⟩
  · rw [getD_set_self hlt]
  · rw [getD_set_self hlt]

/-- Witness for C4: a failed step with one prior retry gets the error and
hint appended, `retry_count = 2`, `status = pending`, and is routed back
to the classifier. -/
theorem reflection_subtask_retry_witness :
    (reflection_node defaultSettings "check the linker flags" c4_state).map
      (fun t => (t.plan, t.next_action, t.current_step_index,
        reflection_router t)) =
      some
        ([{ role := "coder", description := "compile",
            requirements := ["use gcc",
              "Previous Error: linker error",
              "Fix Hint: check the linker flags"],
            status := .pending, error := some "linker error",
            retry_count := 2 }],
         some "retry_subtask", 0, "classifier") := by
  obtain ⟨t, ht, hplan, _, _, _, hna, hidx, _, hroute⟩ :=
    reflection_subtask_retry_effects defaultSettings "check the linker flags"
      c4_state
      { role := "coder", description := "compile",
        requirements := ["use gcc"], status := .failed,
        error := some "linker error", retry_count := 1 }
      (by decide) (by decide)
  rw [ht]
  simp only [Option.map_some']
  rw [hplan, hna, hidx, hroute]
  rfl

/-! ## C6 — cursor advancement -/

/-- C6: with the cursor in range, every executor adapter advances
`current_step_index` by exactly one when its backend invocation succeeds,
and leaves it unchanged on every failure path (exception or early-return
failure branch), so the failed step remains the step at the cursor. -/
theorem adapters_advance_cursor_iff_success (s : AgentState)
    (h : s.current_step_index < s.plan.length) :
    (∀ out, (executor_node s (.success out)).current_step_index =
      s.current_step_index + 1) ∧
    (∀ err, (executor_node s (.failure err)).current_step_index =
      s.current_step_index) ∧
    (∀ out, (llm_responder_node s (.success out)).current_step_index =
      s.current_step_index + 1) ∧
    (∀ err, (llm_responder_node s (.failure err)).current_step_index =
      s.current_step_index) ∧
    (∀ server out, (web_executor_node s (.success server out)).current_step_index =
      s.current_step_index + 1) ∧
    (∀ err, (web_executor_node s (.failure err)).current_step_index =
      s.current_step_index) ∧
    (∀ code sb, (code_generator_node s (.success code sb)).current_step_index =
      s.current_step_index + 1) ∧
    (∀ err, (code_generator_node s (.failure err)).current_step_index =
      s.current_step_index) ∧
    (∀ rt ta, (code2mcp_executor_node s (.success rt ta)).current_step_index =
      s.current_step_index + 1) ∧
    (code2mcp_executor_node s .noRepos).current_step_index =
      s.current_step_index ∧
    (code2mcp_executor_node s .notSelected).current_step_index =
      s.current_step_index ∧
    (∀ err, (code2mcp_executor_node s (.conversionFailed err)).current_step_index =
      s.current_step_index) ∧
    (∀ err, (code2mcp_executor_node s (.failure err)).current_step_index =
      s.current_step_index) := by
  refine ⟨fun out => ?_, fun err => ?_, fun out => ?_, fun err => ?_,
    fun server out => ?_, fun err => ?_, fun code sb => ?_, fun err => ?_,
    fun rt ta => ?_, ?_, ?_, fun err => ?_, fun err => ?_⟩ <;>
    simp [executor_node, llm_responder_node, web_executor_node,
      code_generator_node, code2mcp_executor_node, h]

/-- Witness for C6: on the one-step demo state, a success moves the
cursor from 0 to 1, a failure keeps it at 0. -/
theorem adapters_advance_cursor_witness :
    (executor_node witState (.success "done")).current_step_index = 1 ∧
      (executor_node witState (.failure "boom")).current_step_index = 0 ∧
      (llm_responder_node witState (.success "done")).current_step_index = 1 ∧
      (code2mcp_executor_node witState .noRepos).current_step_index = 0 :=
  ⟨(adapters_advance_cursor_iff_success witState (by decide)).1 "done",
    (adapters_advance_cursor_iff_success witState (by decide)).2.1 "boom",
    (adapters_advance_cursor_iff_success witState (by decide)).2.2.1 "done",
    (adapters_advance_cursor_iff_success witState (by decide)).2.2.2.2.2.2.2.2.2.1⟩

/-! ## C8 — no step left `running` -/

/-- C8: with the cursor in range, every executor adapter returns the
processed step with status `completed` or `failed`, for every collaborator
outcome — the transient `running` mark set at the start of the invocation
is always overwritten before the node returns. -/
theorem adapters_never_return_running (s : AgentState)
    (h : s.current_step_index < s.plan.length) :
    (∀ o : LLMOutcome,
      ((executor_node s o).plan.getD s.current_step_index default).status =
          .completed ∨
        ((executor_node s o).plan.getD s.current_step_index default).status =
          .failed) ∧
    (∀ o : LLMOutcome,
      ((llm_responder_node s o).plan.getD s.current_step_index default).status =
          .completed ∨
        ((llm_responder_node s o).plan.getD s.current_step_index default).status =
          .failed) ∧
    (∀ o : WebOutcome,
      ((web_executor_node s o).plan.getD s.current_step_index default).status =
          .completed ∨
        ((web_executor_node s o).plan.getD s.current_step_index default).status =
          .failed) ∧
    (∀ o : CodeGenOutcome,
      ((code_generator_node s o).plan.getD s.current_step_index default).status =
          .completed ∨
        ((code_generator_node s o).plan.getD s.current_step_index default).status =
          .failed) ∧
    (∀ o : Code2MCPOutcome,
      ((code2mcp_executor_node s o).plan.getD s.current_step_index default).status =
          .completed ∨
        ((code2mcp_executor_node s o).plan.getD s.current_step_index default).status =
          .failed) := by
  refine ⟨fun o => ?_, fun o => ?_, fun o => ?_, fun o => ?_, fun o => ?_⟩ <;>
    cases o <;>
    simp [executor_node, llm_responder_node, web_executor_node,
      code_generator_node, code2mcp_executor_node, h, getD_set_self]

/-- Witness for C8: on the one-step demo state, success leaves the step
`completed`, failure leaves it `failed` — never `running`. -/
theorem adapters_never_return_running_witness :
    (((executor_node witState (.success "done")).plan.getD 0 default).status =
        .completed ∨
      ((executor_node witState (.success "done")).plan.getD 0 default).status =
        .failed) ∧
    (((llm_responder_node witState (.failure "boom")).plan.getD 0
          default).status = .completed ∨
      ((llm_responder_node witState (.failure "boom")).plan.getD 0
          default).status = .failed) :=
  ⟨(adapters_never_return_running witState (by decide)).1 (.success "done"),
    (adapters_never_return_running witState (by decide)).2.1 (.failure "boom")⟩

/-! ## C7 — the generated-code adapter and sandbox failures -/

/-- C7 counterexample: a runtime error raised by the generated code inside
the sandbox does *not* produce `status = failed` — `_run_local_unsafe`
catches it and returns the string `"Execution Error: ..."`, which
`code_generator_node` records as a successful result.  Refuted at a step
whose generated code divides by zero. -/
theorem code_generator_sandbox_error_counterexample :
    ¬ (∀ (s : AgentState) (code err : String),
        s.current_step_index < s.plan.length →
        ((code_generator_node s (.success code (.raised err))).plan.getD
            s.current_step_index default).status = .failed) := by
  intro hclaim
  have := hclaim c7_state "print(1/0)" "ZeroDivisionError: division by zero"
    (by decide)
  exact absurd this (by decide)

/-- C7 amended: no exception escapes the adapter — the sandbox converts a
raised exception into the string `"Execution Error: ..."` and the node's
own handler converts an LLM-stage exception into `status = failed` with
`error` set (cursor unchanged) — but a runtime error inside the sandbox is
recorded as a *successful* outcome: `status = completed`, `result` set to
the error string, cursor advanced, `error` untouched. -/
theorem code_generator_failure_handling (s : AgentState)
    (h : s.current_step_index < s.plan.length) :
    (∀ err, run_local (.raised err) = "Execution Error: " ++ err) ∧
    (∀ err,
      (code_generator_node s (.failure err)).plan.getD s.current_step_index
          default =
        { s.plan.get ⟨s.current_step_index, h⟩ with
            status := .failed, error := some err } ∧
      (code_generator_node s (.failure err)).current_step_index =
        s.current_step_index) ∧
    (∀ code err,
      (code_generator_node s (.success code (.raised err))).plan.getD
          s.current_step_index default =
        { s.plan.get ⟨s.current_step_index, h⟩ with
            result := some ("Execution Error: " ++ err),
            status := .completed,
            tool_args := some code } ∧
      (code_generator_node s (.success code (.raised err))).current_step_index =
        s.current_step_index + 1) := by
  refine ⟨fun err => rfl, fun err => ⟨?_, ?_⟩, fun code err => ⟨?_, ?_⟩⟩ <;>
    simp [code_generator_node, run_local, h, getD_set_self]

/-- Witness for C7 (amended): an LLM failure marks the demo step failed
in place; a sandbox runtime error still advances the cursor. -/
theorem code_generator_failure_handling_witness :
    (code_generator_node c7_state (.failure "rate limit")).plan.getD 0
        default =
      { c7_step with status := .failed, error := some "rate limit" } ∧
    (code_generator_node c7_state
        (.success "print(1/0)" (.raised "ZeroDivisionError"))).current_step_index =
      1 :=
  ⟨((code_generator_failure_handling c7_state (by decide)).2.1
      "rate limit").1,
    ((code_generator_failure_handling c7_state (by decide)).2.2
      "print(1/0)" "ZeroDivisionError").2⟩

/-! ## C9 — planner failure handling -/

/-- C9: the claimed transition cannot be produced by `planner_node` at
all.  `planner.py` imports only `TaskStep`, `ExecutionPlan` and
`AgentState` (lines 1–4) but both of its return paths construct an
`AgentMessage` (lines 93 and 99): the success path's `NameError` is
caught by the `except Exception` handler at line 96, and the handler
itself evaluates `AgentMessage` and re-raises `NameError`, uncaught.  So
on *every* outcome — planner failure, empty plan, or even a successful
plan — the node raises instead of returning: no failure message is
appended, no plan is installed, control never reaches the classifier, and
the run aborts with an uncaught exception rather than transitioning to
`done`. -/
theorem planner_node_always_raises :
    ∀ (s : AgentState) (o : PlanOutcome),
      planner_node s o =
        .error "NameError: name 'AgentMessage' is not defined" := by
  intro s o
  cases o <;> rfl

/-! ## C2 — the exclusive-outcome invariant -/

/-- C2 counterexample: the claim's adapter clause — every adapter's
success path clears any error left on the step before marking it
completed — is false of the pure-text adapter as a function: fed a step
carrying the error a classifier failure records (`classifier.py:259`,
reproduced verbatim in `c2_s2`), `llm_responder_node`'s success path
marks the step `completed` with the error still set (its lines 67–74
contain no `error = None`; only `executor.py:128` has one).  (No run of
the program as given reaches any adapter — `planner_node` raises on every
path — so the violation is exhibited at the adapter boundary, exactly as
the claim states the contract.) -/
theorem completed_step_with_error_counterexample :
    ¬ (∀ (s : AgentState) (out : String),
        s.current_step_index < s.plan.length →
        ((llm_responder_node s (.success out)).plan.getD
            s.current_step_index default).status = .completed →
        ((llm_responder_node s (.success out)).plan.getD
            s.current_step_index default).error = none) := by
  intro hclaim
  have := hclaim c2_s2 "hello" (by decide) (by decide)
  exact absurd this (by decide)

/-- C2 amended: at every reachable state `failed ⇒ error set` holds for
every step; the local-tool adapter's success path does clear a
pre-existing error while completing the step (`executor.py` line 128);
but the pure-text adapter's success path leaves `error` exactly as it
was, so a step it completes can retain an earlier error and
`completed ⇒ error unset` fails at the adapter level. -/
theorem failed_steps_carry_error :
    (∀ (cfg : Settings) (s : AgentState), Reachable cfg s →
        ∀ st ∈ s.plan, st.status = .failed → st.error ≠ none) ∧
    (∀ (s : AgentState) (h : s.current_step_index < s.plan.length)
        (out : String),
        (executor_node s (.success out)).plan.getD s.current_step_index
            default =
          { s.plan.get ⟨s.current_step_index, h⟩ with
              result := some out, status := .completed, error := none }) ∧
    (∀ (s : AgentState) (h : s.current_step_index < s.plan.length)
        (out : String),
        ((llm_responder_node s (.success out)).plan.getD
            s.current_step_index default).error =
          (s.plan.get ⟨s.current_step_index, h⟩).error) := by
  refine ⟨?_, ?_, ?_⟩
  · intro cfg s hr st hst hf
    exact ((runInvariant_reachable cfg s hr).2.2 st hst).1 hf
  · intro s h out
    simp [executor_node, h, getD_set_self]
  · intro s h out
    simp [llm_responder_node, h, getD_set_self]

/-- Witness for C2 (amended): after a local-executor failure on an
installed step, the failed step's error is set; the local executor's
success on the demo state completes the step with `error` cleared; and
the pure-text adapter's success on the classification-error state keeps
the error set. -/
theorem failed_steps_carry_error_witness :
    ({ c2_step with status := .failed, error := some "boom" } :
        TaskStep).error ≠ none ∧
    (executor_node witState (.success "done")).plan.getD 0 default =
      { role := "coder", description := "write a file",
        task_type := some "pure_llm", result := some "done",
        status := .completed, error := none } ∧
    ((llm_responder_node c2_s2 (.success "hello")).plan.getD 0
        default).error =
      some "Classification Error: ollama connection refused" :=
  ⟨failed_steps_carry_error.1 defaultSettings
      (executor_node (planner_success_update c2_s0 [c2_step])
        (.failure "boom"))
      ⟨c2_s0, ⟨rfl, rfl, rfl, rfl, rfl, rfl⟩,
        .tail (.single (.planner_ok c2_s0 [c2_step] (by
          intro st hst
          rw [List.mem_singleton] at hst
          subst hst
          exact ⟨rfl, rfl, rfl⟩)))
          (.execLocal (planner_success_update c2_s0 [c2_step])
            (.failure "boom"))⟩
      _ (by decide) (by decide),
    failed_steps_carry_error.2.1 witState (by decide) "done",
    (failed_steps_carry_error.2.2 c2_s2 (by decide) "hello").trans rfl⟩

/-! ## C3 — the Level-1 retry guard and bound -/

/-- C3 counterexample: the Level-1 branch is *not* guarded by
`step.retry_count < step.max_retries`.  A step with `retry_count = 3` and
its own `max_retries = 5` should retry under that guard, but the
controller compares against the configured `MAX_SUBTASK_RETRIES = 3`
(ignoring the step's field) and escalates to `fail` instead. -/
theorem level1_guard_ignores_step_max_retries :
    ¬ (∀ (cfg : Settings) (hint : String) (s : AgentState) (step : TaskStep),
        s.plan[s.current_step_index]? = some step →
        ∃ t, reflection_node cfg hint s = some t ∧
          ((t.next_action = some "retry_subtask") ↔
            step.retry_count < step.max_retries)) := by
  intro hclaim
  obtain ⟨t, ht, hiff⟩ :=
    hclaim defaultSettings "hint" c3_state c3_step (by decide)
  have h1 : (reflection_node defaultSettings "hint" c3_state).map
      (fun u => u.next_action) = some (some "fail") := by decide
  rw [ht] at h1
  simp only [Option.map_some'] at h1
  rw [hiff.mpr (by decide)] at h1
  exact absurd h1 (by decide)

/-- C3 amended: the Level-1 branch is taken iff
`step.retry_count < state.get("max_subtask_retries", settings.MAX_SUBTASK_RETRIES)`
— the state-configured bound, not the step's own `max_retries` field —
and along every run that key stays absent and every step's `retry_count`
stays at most `settings.MAX_SUBTASK_RETRIES`, so the number of Level-1
retries a step receives never exceeds the configured bound. -/
theorem level1_retry_guard_and_bound :
    (∀ (cfg : Settings) (hint : String) (s : AgentState) (step : TaskStep),
        s.plan[s.current_step_index]? = some step →
        ∃ t, reflection_node cfg hint s = some t ∧
          ((t.next_action = some "retry_subtask") ↔
            step.retry_count <
              s.max_subtask_retries.getD cfg.MAX_SUBTASK_RETRIES)) ∧
    (∀ (cfg : Settings) (s : AgentState), Reachable cfg s →
        s.max_subtask_retries = none ∧
        ∀ st ∈ s.plan, st.retry_count ≤ cfg.MAX_SUBTASK_RETRIES) := by
  constructor
  · intro cfg hint s step hstep
    unfold reflection_node
    rw [hstep]
    dsimp only
    by_cases hb : step.retry_count <
      s.max_subtask_retries.getD cfg.MAX_SUBTASK_RETRIES
    · rw [if_pos hb]
      exact ⟨_, rfl, iff_of_true rfl hb⟩
    · rw [if_neg hb]
      split_ifs with hc
      · exact ⟨_, rfl, iff_of_false (by simp) hb⟩
      · exact ⟨_, rfl, iff_of_false (by simp) hb⟩
  · intro cfg s hr
    obtain ⟨hmax, _, hsteps⟩ := runInvariant_reachable cfg s hr
    exact ⟨hmax, fun st hst => (hsteps st hst).2⟩

/-- Witness for C3 (amended): a step one retry into its budget takes the
Level-1 branch under the configured bound, and the retry bound holds at a
freshly started run. -/
theorem level1_retry_guard_witness :
    (reflection_node defaultSettings "hint" c4_state).map
        (fun t => t.next_action) = some (some "retry_subtask") ∧
    c2_s0.max_subtask_retries = none := by
  constructor
  · obtain ⟨t, ht, hiff⟩ :=
      level1_retry_guard_and_bound.1 defaultSettings "hint" c4_state
        { role := "coder", description := "compile",
          requirements := ["use gcc"], status := .failed,
          error := some "linker error", retry_count := 1 }
        (by decide)
    rw [ht]
    simp only [Option.map_some']
    rw [hiff.mpr (by decide)]
  · exact (level1_retry_guard_and_bound.2 defaultSettings c2_s0
      ⟨c2_s0, ⟨rfl, rfl, rfl, rfl, rfl, rfl⟩, .refl⟩).1

end AutoMCP
